import Mathlib

/-!
Shallow embedding of `src/container-manager/run.js` (palcode-runner).

The source registers three socket handlers (`start`, `stdin`, `stop`) that
sequence calls to the docker runtime, the socket rooms, and the external
code store.  We embed each handler as a function from its input (and the
outcomes of the external calls it awaits) to the ordered list of primitive
effects it performs — emissions, kill/remove/create calls, room membership
changes, persistence calls — exactly in the order the JavaScript executes
them.  A small `World` state with a step function interprets those effects,
so that invariants (one live container per name, room membership,
delivered messages) can be stated and proved.

Modelling conventions, mirroring the source:
  * environment variables (`PAL_TIMEOUT`, `PAL_PID_LIMIT`, `PAL_MEMORY_QUOTA`,
    `PAL_DISK_QUOTA`, `PAL_STOP_SIGNAL`) are carried, already parsed, as
    `Option` fields of `Env`; `parseInt(process.env.X || default)` becomes
    `Option.getD` of the parsed value;
  * the external collaborators (`getTag`, `isValidLanguage`, `getMaxCPUs`,
    `sanitize`, `path.resolve`, storage root) are opaque parameters in `Env`;
  * JavaScript string falsiness (`!data.projectId`) is `falsy`: a field is
    falsy when it is absent or the empty string;
  * `uuid()` is an oracle: each output chunk arrives paired with the id the
    relay generates for it;
  * `cloneCode` / `docker.createContainer` success or failure is an oracle
    (`RunOutcome`), since those are awaited external calls;
  * `containerStdin`'s attach/write/end/wait chain is collapsed into the
    single `stdinWrite` action (no claim concerns its internals).
-/

namespace PalcodeRunner

/-- Payload of a `run` event as emitted by the source: a status code plus
optional `message`, `running`, `stdout`, `stdoutID` fields. -/
structure RunMsg where
  status : Nat
  message : Option String := none
  running : Option Bool := none
  stdout : Option String := none
  stdoutID : Option String := none
deriving Repr, DecidableEq

/-- The configuration object passed to `docker.createContainer`
(run.js lines 15-40). -/
structure ContainerConfig where
  image : String
  name : String
  workingDir : String
  binds : List String
  entrypoint : List String
  openStdin : Bool
  tty : Bool
  pidsLimit : Nat
  memory : Nat
  diskQuota : Nat
  nanoCPUs : Nat
deriving Repr, DecidableEq

/-- One primitive effect performed by a handler, in program order.
`emitSelf` is `socket.emit('run', …)` (direct reply to the sender);
`emitRoom` is `io.to(room).emit('run', …)` (broadcast to the subscriber
set of `room`).  `createContainer` records the attempted configuration
together with the runtime's outcome (`ok`). -/
inductive Action where
  | emitSelf (msg : RunMsg)
  | emitRoom (room : String) (msg : RunMsg)
  | cloneCode (projectId schoolId : String)
  | killContainer (name : String) (signal : String)
  | removeContainer (name : String)
  | createContainer (cfg : ContainerConfig) (ok : Bool)
  | startContainer (name : String)
  | attachOutput (name : String)
  | saveChanges (projectId schoolId : String)
  | leaveAll
  | joinRoom (room : String)
  | stdinWrite (name : String) (data : String)
deriving Repr, DecidableEq

/-- Environment: parsed optional configuration variables plus the external
collaborators the core consumes (tag resolver, language validator, CPU
budget allocator, filename sanitizer, path resolution, storage root). -/
structure Env where
  palTimeout : Option Nat := none
  palPidLimit : Option Nat := none
  palMemoryQuota : Option Nat := none
  palDiskQuota : Option Nat := none
  palStopSignal : Option String := none
  getTag : String → String
  isValidLanguage : String → Bool
  getMaxCPUs : Nat
  sanitize : String → String
  resolvePath : String → String → String
  storageRoot : String

/-- Outcomes of the awaited external calls of one `start` session:
whether `cloneCode` resolved, whether `docker.createContainer` succeeded,
and the output chunks the attached stream produced, each paired with the
uuid generated for it. -/
structure RunOutcome where
  cloneOk : Bool
  createOk : Bool
  chunks : List (String × String)
deriving Repr, DecidableEq

/-- JavaScript falsiness of an optional string field: absent or empty. -/
def falsy : Option String → Bool
  | none => true
  | some s => s.isEmpty

/-- `isValidLanguage(data.language)`: an absent language is not valid. -/
def langOk (env : Env) : Option String → Bool
  | none => false
  | some l => env.isValidLanguage l

/-- `containerStop` (run.js lines 104-119): kill with the configured signal
(default SIGKILL), then forced remove; each step is wrapped in its own
try/catch, so both are always attempted and no failure escapes. -/
def containerStopActs (env : Env) (projectId : String) : List Action :=
  [Action.killContainer projectId (env.palStopSignal.getD "SIGKILL"),
   Action.removeContainer projectId]

/-- The `docker.createContainer` configuration built in `execCode`
(run.js lines 15-40). -/
def containerConfig (env : Env) (projectId language : String) : ContainerConfig :=
  { image := env.getTag language
    name := projectId
    workingDir := "/opt/runner"
    binds := [env.resolvePath env.storageRoot (env.sanitize projectId) ++ ":/usr/src/app:rw"]
    entrypoint := ["./run.sh", toString (env.palTimeout.getD 15) ++ "m"]
    openStdin := true
    tty := true
    pidsLimit := env.palPidLimit.getD 25
    memory := env.palMemoryQuota.getD (100 * 1048576)
    diskQuota := env.palDiskQuota.getD (50 * 1048576)
    nanoCPUs := env.getMaxCPUs }

/-- One `stream.on('data')` firing: the chunk is re-emitted to the project's
subscriber set with a fresh `stdoutID` (run.js lines 64-73). -/
def chunkEvent (projectId : String) (c : String × String) : Action :=
  Action.emitRoom projectId
    { status := 200, stdout := some c.1, stdoutID := some c.2, running := some true }

/-- `stream.on('end')` (run.js lines 75-83): terminal event to the room,
then `containerStop`, then `saveChanges`. -/
def relayEndActs (env : Env) (projectId schoolId : String) : List Action :=
  [Action.emitRoom projectId { status := 200, running := some false }] ++
  containerStopActs env projectId ++
  [Action.saveChanges projectId schoolId]

/-- `execCode` (run.js lines 10-86): emit "Starting...", attempt container
creation; on failure emit the 500 event to the room and stop; on success
emit the "Container created!" event, start, attach, relay each chunk, and
on stream end run `relayEndActs`. -/
def execCodeActs (env : Env) (projectId language schoolId : String)
    (o : RunOutcome) : List Action :=
  [Action.emitRoom projectId { status := 200, message := some "Starting..." },
   Action.createContainer (containerConfig env projectId language) o.createOk] ++
  (if o.createOk then
    [Action.emitRoom projectId
       { status := 200, message := some "Container created! Mounting...", running := some true },
     Action.startContainer projectId,
     Action.attachOutput projectId] ++
    o.chunks.map (chunkEvent projectId) ++
    relayEndActs env projectId schoolId
  else
    [Action.emitRoom projectId
       { status := 500, message := some "Run failed. Try again.", running := some false }])

/-- Payload of a `start` command. -/
structure StartData where
  projectId : Option String
  language : Option String
  schoolId : Option String
deriving Repr, DecidableEq

/-- The validation guard of the `start` handler (run.js line 124):
`!data.projectId || !isValidLanguage(data.language) || !data.schoolId`,
negated. -/
def startValid (env : Env) (d : StartData) : Bool :=
  !falsy d.projectId && langOk env d.language && !falsy d.schoolId

/-- The `start` handler (run.js lines 123-154): on invalid input reply 400;
otherwise acknowledge, clone the code (404 reply on failure), tear down any
previous container for the project, replace the socket's room memberships
with exactly the project's room, and run `execCode`. -/
def startActs (env : Env) (d : StartData) (o : RunOutcome) : List Action :=
  if !startValid env d then [Action.emitSelf { status := 400 }]
  else
    [Action.emitSelf
       { status := 200, message := some "Request acknowledged. Downloading code..." },
     Action.cloneCode (d.projectId.getD "") (d.schoolId.getD "")] ++
    (if !o.cloneOk then [Action.emitSelf { status := 404 }]
     else
      containerStopActs env (d.projectId.getD "") ++
      [Action.leaveAll, Action.joinRoom (d.projectId.getD "")] ++
      execCodeActs env (d.projectId.getD "") (d.language.getD "") (d.schoolId.getD "") o)

/-- Payload of a `stdin` command. -/
structure StdinData where
  projectId : Option String
  stdin : Option String
deriving Repr, DecidableEq

/-- The `stdin` handler (run.js lines 156-165): reply 400 when either field
is falsy, otherwise write the bytes into the named container. -/
def stdinActs (d : StdinData) : List Action :=
  if falsy d.projectId || falsy d.stdin then [Action.emitSelf { status := 400 }]
  else [Action.stdinWrite (d.projectId.getD "") (d.stdin.getD "")]

/-- Payload of a `stop` command. -/
structure StopData where
  projectId : Option String
deriving Repr, DecidableEq

/-- The `stop` handler (run.js lines 167-181): reply 400 when the project id
is falsy; otherwise `await containerStop(...)` and then emit the
`{status: 200, running: false}` acknowledgement to the sender. -/
def stopActs (env : Env) (d : StopData) : List Action :=
  if falsy d.projectId then [Action.emitSelf { status := 400 }]
  else
    containerStopActs env (d.projectId.getD "") ++
    [Action.emitSelf { status := 200, running := some false }]

/-- A live container: its docker name and the configuration it was created
with. -/
structure Container where
  name : String
  cfg : ContainerConfig
deriving Repr, DecidableEq

/-- Observable state threaded through a trace: the multiset of live
containers (docker's name-uniqueness is a property to be proved, not baked
into the data structure), the room memberships of the socket under
observation, and the messages delivered to that socket. -/
structure World where
  containers : List Container
  rooms : List String
  inbox : List RunMsg
deriving Repr, DecidableEq

/-- Interpretation of one action on the world.  A room emission is
delivered to the observed socket exactly when the socket is a member of the
room; `removeContainer` deletes every container of that name; a failed
creation attempt leaves the world unchanged. -/
def stepA (w : World) : Action → World
  | Action.emitSelf m => { w with inbox := w.inbox ++ [m] }
  | Action.emitRoom r m =>
      if r ∈ w.rooms then { w with inbox := w.inbox ++ [m] } else w
  | Action.cloneCode _ _ => w
  | Action.killContainer _ _ => w
  | Action.removeContainer n =>
      { w with containers := w.containers.filter (fun c => c.name ≠ n) }
  | Action.createContainer cfg ok =>
      if ok then { w with containers := w.containers ++ [{ name := cfg.name, cfg := cfg }] }
      else w
  | Action.startContainer _ => w
  | Action.attachOutput _ => w
  | Action.saveChanges _ _ => w
  | Action.leaveAll => { w with rooms := [] }
  | Action.joinRoom r => { w with rooms := w.rooms ++ [r] }
  | Action.stdinWrite _ _ => w

/-- Run a list of actions from a world. -/
def execActs (w : World) (l : List Action) : World := l.foldl stepA w

/-- Number of live containers whose docker name is `q`. -/
def liveNamed (w : World) (q : String) : Nat :=
  (w.containers.filter (fun c => c.name = q)).length

/-- Actions that can add a container: a creation attempt that succeeds. -/
def mayCreate : Action → Bool
  | Action.createContainer _ ok => ok
  | _ => false

/-- Any creation attempt, successful or not. -/
def isCreateA : Action → Bool
  | Action.createContainer _ _ => true
  | _ => false

/-- Kill or remove: the two steps of Teardown. -/
def isTeardown : Action → Bool
  | Action.killContainer _ _ => true
  | Action.removeContainer _ => true
  | _ => false

/-- Any emission (direct or room-addressed). -/
def isEmit : Action → Bool
  | Action.emitSelf _ => true
  | Action.emitRoom _ _ => true
  | _ => false

/-- A `saveChanges` persistence call. -/
def isSave : Action → Bool
  | Action.saveChanges _ _ => true
  | _ => false

/-- An `attachOutput` (output relay attachment). -/
def isAttach : Action → Bool
  | Action.attachOutput _ => true
  | _ => false

/-- Actions that modify the socket's room memberships. -/
def touchesRooms : Action → Bool
  | Action.leaveAll => true
  | Action.joinRoom _ => true
  | _ => false

/-- Actions that modify the socket's inbox-visible emissions: `leaveAll`
or a `joinRoom`. -/
def isLeaveAll : Action → Bool
  | Action.leaveAll => true
  | _ => false

/-- A `joinRoom` action. -/
def isJoin : Action → Bool
  | Action.joinRoom _ => true
  | _ => false

/-- A concrete environment with no configuration overrides, used for
witnesses and counterexamples. -/
def defaultEnv : Env :=
  { getTag := fun l => "palcode-" ++ l
    isValidLanguage := fun l => l == "python"
    getMaxCPUs := 500000000
    sanitize := fun s => s
    resolvePath := fun a b => a ++ "/" ++ b
    storageRoot := "/opt/palcode" }

/-- Concrete `start` payload used by witnesses. -/
def dWit : StartData := ⟨some "abc", some "python", some "s1"⟩

/-- Concrete fully-successful outcome used by witnesses. -/
def oWit : RunOutcome := ⟨true, true, [("hi", "u1")]⟩

/-- Concrete outcome with a failed container creation. -/
def oWitNoCreate : RunOutcome := ⟨true, false, []⟩

/-- Concrete outcome with a failed code fetch. -/
def oWitNoClone : RunOutcome := ⟨false, false, []⟩

/-- The `{status: 200, running: false}` acknowledgement emitted by the
`stop` handler. -/
def stopAckMsg : RunMsg := { status := 200, running := some false }

/-- The terminal `{status: 200, running: false}` event delivered by the
relay when the output stream ends. -/
def runEndedMsg : RunMsg := { status := 200, running := some false }

/-- The provisioning-failure event payload emitted by `execCode` when
`docker.createContainer` fails (run.js lines 44-48). -/
def provisionFailMsg : RunMsg :=
  { status := 500, message := some "Run failed. Try again.", running := some false }

/-- A room-addressed event whose payload is
`{status: 200, message: <string>, running: false}` — the shape the spec
attributes to a provisioning failure. -/
def isRoom200MsgNotRunning : Action → Bool
  | Action.emitRoom _ m => m.status == 200 && m.message.isSome && m.running == some false
  | _ => false

theorem execActs_nil (w : World) : execActs w [] = w := rfl

theorem execActs_cons (w : World) (a : Action) (l : List Action) :
    execActs w (a :: l) = execActs (stepA w a) l := rfl

theorem execActs_append (w : World) (l₁ l₂ : List Action) :
    execActs w (l₁ ++ l₂) = execActs (execActs w l₁) l₂ :=
  List.foldl_append _ _ _ _

theorem liveNamed_remove_le (w : World) (n q : String) :
    liveNamed (stepA w (Action.removeContainer n)) q ≤ liveNamed w q := by
  simp only [stepA, liveNamed]
  rw [List.filter_comm]
  exact List.length_filter_le _ _

theorem liveNamed_remove_self (w : World) (n : String) :
    liveNamed (stepA w (Action.removeContainer n)) n = 0 := by
  simp only [stepA, liveNamed, List.length_eq_zero, List.filter_comm]
  apply List.filter_eq_nil_iff.mpr
  intro c hc
  simp only [List.mem_filter] at hc
  simpa using hc.2

theorem liveNamed_create (w : World) (cfg : ContainerConfig) (ok : Bool) (q : String) :
    liveNamed (stepA w (Action.createContainer cfg ok)) q =
      liveNamed w q + (if ok = true ∧ cfg.name = q then 1 else 0) := by
  cases ok with
  | false => simp [stepA, liveNamed]
  | true =>
    simp only [stepA, if_pos rfl, liveNamed, List.filter_append, List.length_append, true_and]
    by_cases h : cfg.name = q <;> simp [h]

theorem liveNamed_stepA_le (w : World) (a : Action) (q : String)
    (h : mayCreate a = false) :
    liveNamed (stepA w a) q ≤ liveNamed w q := by
  cases a with
  | emitRoom r m =>
    simp only [stepA]
    split <;> exact le_refl _
  | removeContainer n => exact liveNamed_remove_le w n q
  | createContainer cfg ok =>
    simp only [mayCreate] at h
    subst h
    simp [stepA]
  | _ => exact le_refl _

theorem liveNamed_execActs_le (w : World) (l : List Action) (q : String)
    (h : ∀ a ∈ l, mayCreate a = false) :
    liveNamed (execActs w l) q ≤ liveNamed w q := by
  induction l generalizing w with
  | nil => exact le_refl _
  | cons a t ih =>
    rw [execActs_cons]
    exact le_trans (ih (stepA w a) (fun b hb => h b (List.mem_cons_of_mem a hb)))
      (liveNamed_stepA_le w a q (h a (List.mem_cons_self a t)))

/-- Every length-`n` leading segment of the trace `t`, run from a world
with at most one container of any given name, again has at most one
container of that name. -/
def BoundedTakes (t : List Action) : Prop :=
  ∀ w q, liveNamed w q ≤ 1 → ∀ n, liveNamed (execActs w (t.take n)) q ≤ 1

theorem boundedTakes_noCreate {t : List Action}
    (h : ∀ a ∈ t, mayCreate a = false) : BoundedTakes t :=
  fun w q hw n =>
    le_trans (liveNamed_execActs_le w (t.take n) q
      (fun a ha => h a (List.take_subset n t ha))) hw

theorem boundedTakes_append {t₁ t₂ : List Action}
    (h₁ : BoundedTakes t₁) (h₂ : BoundedTakes t₂) : BoundedTakes (t₁ ++ t₂) := by
  intro w q hw n
  rw [List.take_append_eq_append_take, execActs_append]
  exact h₂ _ _ (by simpa using h₁ w q hw n) _

theorem boundedTakes_cons {t : List Action} (a : Action)
    (ha : mayCreate a = false) (ht : BoundedTakes t) : BoundedTakes (a :: t) := by
  intro w q hw n
  cases n with
  | zero => simpa using hw
  | succ m =>
    rw [List.take_succ_cons, execActs_cons]
    exact ht _ _ (le_trans (liveNamed_stepA_le w a q ha) hw) m

/-- Core of the single-sandbox argument: a trace that removes every
container named `p`, then (through create-free actions) attempts exactly
one creation, of a container named `p`, followed by create-free actions,
keeps the per-name container count at or below one at every step. -/
theorem boundedTakes_remove_create (p : String) (cfg : ContainerConfig) (ok : Bool)
    (M R : List Action) (hname : cfg.name = p)
    (hM : ∀ a ∈ M, mayCreate a = false) (hR : ∀ a ∈ R, mayCreate a = false) :
    BoundedTakes (Action.removeContainer p :: (M ++ Action.createContainer cfg ok :: R)) := by
  intro w q hw n
  cases n with
  | zero => simpa using hw
  | succ m =>
    rw [List.take_succ_cons, execActs_cons]
    have hq1 : liveNamed (stepA w (Action.removeContainer p)) q ≤ 1 :=
      le_trans (liveNamed_remove_le w p q) hw
    have hp1 : liveNamed (stepA w (Action.removeContainer p)) p = 0 :=
      liveNamed_remove_self w p
    rw [List.take_append_eq_append_take, execActs_append]
    have hq2 : liveNamed (execActs (stepA w (Action.removeContainer p)) (M.take m)) q ≤ 1 :=
      le_trans (liveNamed_execActs_le _ _ _
        (fun a ha => hM a (List.take_subset m M ha))) hq1
    have hp2 : liveNamed (execActs (stepA w (Action.removeContainer p)) (M.take m)) p = 0 :=
      Nat.le_zero.mp (le_trans (liveNamed_execActs_le _ _ _
        (fun a ha => hM a (List.take_subset m M ha))) (le_of_eq hp1))
    cases hk : m - M.length with
    | zero => simpa [execActs] using hq2
    | succ k =>
      rw [List.take_succ_cons, execActs_cons]
      have hq3 : liveNamed (stepA (execActs (stepA w (Action.removeContainer p)) (M.take m))
          (Action.createContainer cfg ok)) q ≤ 1 := by
        rw [liveNamed_create]
        by_cases hcase : ok = true ∧ cfg.name = q
        · have hqp : q = p := by rw [← hcase.2]; exact hname
          rw [if_pos hcase, hqp, hp2]
        · rw [if_neg hcase]
          simpa using hq2
      exact le_trans (liveNamed_execActs_le _ _ _
        (fun a ha => hR a (List.take_subset k R ha))) hq3

theorem mayCreate_chunkEvent (p : String) (c : String × String) :
    mayCreate (chunkEvent p c) = false := rfl

/-- Every `start` trace, whatever its input and outcome, keeps the number
of live containers of any given name at or below one at every step. -/
theorem boundedTakes_startActs (env : Env) (d : StartData) (o : RunOutcome) :
    BoundedTakes (startActs env d o) := by
  unfold startActs
  split
  · exact boundedTakes_noCreate (by intro a ha; simp at ha; subst ha; rfl)
  · apply boundedTakes_append
    · exact boundedTakes_noCreate
        (by intro a ha; simp at ha; rcases ha with rfl | rfl <;> rfl)
    · split
      · exact boundedTakes_noCreate (by intro a ha; simp at ha; subst ha; rfl)
      · simp only [containerStopActs, execCodeActs, relayEndActs, List.cons_append,
          List.nil_append, List.append_assoc]
        apply boundedTakes_cons
          (Action.killContainer (d.projectId.getD "") (env.palStopSignal.getD "SIGKILL")) rfl
        refine boundedTakes_remove_create (d.projectId.getD "") _ o.createOk
          [Action.leaveAll, Action.joinRoom (d.projectId.getD ""),
           Action.emitRoom (d.projectId.getD "") { status := 200, message := some "Starting..." }]
          _ rfl ?_ ?_
        · intro a ha
          simp at ha
          rcases ha with rfl | rfl | rfl <;> rfl
        · intro a ha
          split at ha
          · simp at ha
            rcases ha with rfl | rfl | rfl | ⟨c, cc, -, rfl⟩ | rfl | rfl | rfl | rfl <;> rfl
          · simp at ha
            subst ha
            rfl


/-- C1: two `start` commands for the same project handled in sequence never
yield two simultaneously live sandboxes for one identifier: along the
combined trace at most one container of any given name is live at every
instant, and in the second start's trace the kill and removal of the
previous container both precede the (unique, first) creation attempt. -/
theorem start_sequence_single_sandbox (env : Env) (d₁ d₂ : StartData)
    (o₁ o₂ : RunOutcome) (hv : startValid env d₂ = true) (hc : o₂.cloneOk = true) :
    (∀ w q, liveNamed w q ≤ 1 →
      ∀ n, liveNamed
        (execActs w ((startActs env d₁ o₁ ++ startActs env d₂ o₂).take n)) q ≤ 1) ∧
    (∃ i j k, i < j ∧ j < k ∧
      (startActs env d₂ o₂).get? i =
        some (Action.killContainer (d₂.projectId.getD "")
          (env.palStopSignal.getD "SIGKILL")) ∧
      (startActs env d₂ o₂).get? j =
        some (Action.removeContainer (d₂.projectId.getD "")) ∧
      (∃ cfg ok, (startActs env d₂ o₂).get? k = some (Action.createContainer cfg ok)) ∧
      (∀ m cfg ok,
        (startActs env d₂ o₂).get? m = some (Action.createContainer cfg ok) → k ≤ m)) := by
  constructor
  · exact boundedTakes_append (boundedTakes_startActs env d₁ o₁)
      (boundedTakes_startActs env d₂ o₂)
  · refine ⟨2, 3, 7, by omega, by omega, ?_, ?_, ?_, ?_⟩
    · simp [startActs, hv, hc, containerStopActs]
    · simp [startActs, hv, hc, containerStopActs]
    · exact ⟨containerConfig env (d₂.projectId.getD "") (d₂.language.getD ""), o₂.createOk,
        by simp [startActs, hv, hc, containerStopActs, execCodeActs]⟩
    · intro m cfg ok hm
      by_contra hlt
      push_neg at hlt
      interval_cases m <;>
        simp [startActs, hv, hc, containerStopActs, execCodeActs] at hm

/-- Witness for `start_sequence_single_sandbox` at concrete inputs. -/
theorem start_sequence_single_sandbox_witness :
    startValid defaultEnv dWit = true ∧ oWit.cloneOk = true ∧
    ((∀ w q, liveNamed w q ≤ 1 →
      ∀ n, liveNamed
        (execActs w ((startActs defaultEnv dWit oWitNoCreate ++
          startActs defaultEnv dWit oWit).take n)) q ≤ 1) ∧
    (∃ i j k, i < j ∧ j < k ∧
      (startActs defaultEnv dWit oWit).get? i =
        some (Action.killContainer (dWit.projectId.getD "")
          (defaultEnv.palStopSignal.getD "SIGKILL")) ∧
      (startActs defaultEnv dWit oWit).get? j =
        some (Action.removeContainer (dWit.projectId.getD "")) ∧
      (∃ cfg ok, (startActs defaultEnv dWit oWit).get? k =
        some (Action.createContainer cfg ok)) ∧
      (∀ m cfg ok,
        (startActs defaultEnv dWit oWit).get? m =
          some (Action.createContainer cfg ok) → k ≤ m))) :=
  ⟨by decide, rfl,
    start_sequence_single_sandbox defaultEnv dWit dWit oWitNoCreate oWit (by decide) rfl⟩

/-- C10: command validation tests falsiness, not absence: an empty-string
`projectId` or `schoolId` in a `start`, or an empty-string `stdin` field,
is answered with a direct 400 reply and nothing else, exactly as when the
field is missing. -/
theorem validation_rejects_empty_strings (env : Env) (pid lang sch : Option String)
    (o : RunOutcome) :
    startActs env ⟨some "", lang, sch⟩ o = [Action.emitSelf { status := 400 }] ∧
    startActs env ⟨some "", lang, sch⟩ o = startActs env ⟨none, lang, sch⟩ o ∧
    startActs env ⟨pid, lang, some ""⟩ o = [Action.emitSelf { status := 400 }] ∧
    startActs env ⟨pid, lang, some ""⟩ o = startActs env ⟨pid, lang, none⟩ o ∧
    stdinActs ⟨pid, some ""⟩ = [Action.emitSelf { status := 400 }] ∧
    stdinActs ⟨pid, some ""⟩ = stdinActs ⟨pid, none⟩ := by
  have h : falsy (some "") = true := rfl
  have h0 : falsy none = true := rfl
  refine ⟨?_, ?_, ?_, ?_, ?_, ?_⟩ <;>
    simp [startActs, stdinActs, startValid, h, h0, Bool.and_false]

/-- C7: when the code fetch of a valid `start` fails, the handler replies
404 directly to the sender and stops there: beyond the acknowledgement and
the fetch attempt nothing happens — no container is killed, removed or
created and the socket's room memberships are untouched. -/
theorem clone_failure_no_state_change (env : Env) (d : StartData) (o : RunOutcome)
    (hv : startValid env d = true) (hc : o.cloneOk = false) :
    startActs env d o =
      [Action.emitSelf
         { status := 200, message := some "Request acknowledged. Downloading code..." },
       Action.cloneCode (d.projectId.getD "") (d.schoolId.getD ""),
       Action.emitSelf { status := 404 }] ∧
    ∀ w, execActs w (startActs env d o) =
      { w with inbox := w.inbox ++
          [{ status := 200, message := some "Request acknowledged. Downloading code..." },
           { status := 404 }] } := by
  have htr : startActs env d o =
      [Action.emitSelf
         { status := 200, message := some "Request acknowledged. Downloading code..." },
       Action.cloneCode (d.projectId.getD "") (d.schoolId.getD ""),
       Action.emitSelf { status := 404 }] := by
    simp [startActs, hv, hc]
  refine ⟨htr, fun w => ?_⟩
  rw [htr]
  simp [execActs, stepA]

/-- Witness for `clone_failure_no_state_change` at concrete inputs. -/
theorem clone_failure_no_state_change_witness :
    startValid defaultEnv dWit = true ∧ oWitNoClone.cloneOk = false ∧
    (startActs defaultEnv dWit oWitNoClone =
      [Action.emitSelf
         { status := 200, message := some "Request acknowledged. Downloading code..." },
       Action.cloneCode (dWit.projectId.getD "") (dWit.schoolId.getD ""),
       Action.emitSelf { status := 404 }] ∧
    ∀ w, execActs w (startActs defaultEnv dWit oWitNoClone) =
      { w with inbox := w.inbox ++
          [{ status := 200, message := some "Request acknowledged. Downloading code..." },
           { status := 404 }] }) :=
  ⟨by decide, rfl, clone_failure_no_state_change defaultEnv dWit oWitNoClone (by decide) rfl⟩

/-- C2 counterexample: in the `stop` handler's trace the acknowledgement
does not come first: at the concrete input `{projectId: "abc"}` the ack is
at position 2, after kill (position 0) and remove (position 1), refuting
the claim that it is emitted without waiting for the kill/remove calls. -/
theorem stop_ack_before_teardown_false :
    ¬ (∀ i j, (stopActs defaultEnv ⟨some "abc"⟩).get? i = some (Action.emitSelf stopAckMsg) →
        (∃ a, (stopActs defaultEnv ⟨some "abc"⟩).get? j = some a ∧ isTeardown a = true) →
        i < j) := by
  intro h
  have := h 2 0 (by decide) ⟨Action.killContainer "abc" "SIGKILL", by decide, rfl⟩
  omega

/-- C2 amended: for every valid `stop` the dispatcher emits the
`{status: 200, running: false}` acknowledgement directly to the caller
exactly once, immediately after — not before — the teardown's kill and
remove attempts have completed; no emission happens during teardown. -/
theorem stop_ack_after_teardown (env : Env) (p : String) (hp : p ≠ "") :
    stopActs env ⟨some p⟩ = containerStopActs env p ++ [Action.emitSelf stopAckMsg] ∧
    ∀ a ∈ containerStopActs env p, isEmit a = false := by
  constructor
  · simp [stopActs, falsy, String.isEmpty_iff, hp, stopAckMsg]
  · intro a ha
    simp [containerStopActs] at ha
    rcases ha with rfl | rfl <;> rfl

/-- Witness for `stop_ack_after_teardown` at a concrete input. -/
theorem stop_ack_after_teardown_witness :
    "abc" ≠ "" ∧
    (stopActs defaultEnv ⟨some "abc"⟩ =
      containerStopActs defaultEnv "abc" ++ [Action.emitSelf stopAckMsg] ∧
    ∀ a ∈ containerStopActs defaultEnv "abc", isEmit a = false) :=
  ⟨by decide, stop_ack_after_teardown defaultEnv "abc" (by decide)⟩

/-- C8: Teardown always attempts both kill and removal and surfaces no
error: it is idempotent on the container state, and a `stop` for a project
with no live container changes no container and still delivers exactly the
`{status: 200, running: false}` acknowledgement to the caller. -/
theorem teardown_idempotent_and_safe (env : Env) (p : String) (hp : p ≠ "") :
    stopActs env ⟨some p⟩ =
      [Action.killContainer p (env.palStopSignal.getD "SIGKILL"),
       Action.removeContainer p,
       Action.emitSelf stopAckMsg] ∧
    (∀ w, (execActs (execActs w (containerStopActs env p))
        (containerStopActs env p)).containers =
        (execActs w (containerStopActs env p)).containers) ∧
    (∀ w, liveNamed w p = 0 →
      (execActs w (stopActs env ⟨some p⟩)).containers = w.containers) ∧
    (∀ w, (execActs w (stopActs env ⟨some p⟩)).inbox = w.inbox ++ [stopAckMsg]) := by
  have htr : stopActs env ⟨some p⟩ =
      [Action.killContainer p (env.palStopSignal.getD "SIGKILL"),
       Action.removeContainer p,
       Action.emitSelf stopAckMsg] := by
    simp [stopActs, falsy, String.isEmpty_iff, hp, containerStopActs, stopAckMsg]
  refine ⟨htr, fun w => ?_, fun w hw => ?_, fun w => ?_⟩
  · simp [containerStopActs, execActs, stepA, List.filter_filter]
  · rw [htr]
    have hcs : ∀ c ∈ w.containers, c.name ≠ p := by
      have h0 : w.containers.filter (fun c => c.name = p) = [] :=
        List.length_eq_zero.mp hw
      intro c hc
      have := List.filter_eq_nil_iff.mp h0 c hc
      simpa using this
    simp only [execActs, List.foldl_cons, List.foldl_nil, stepA]
    exact List.filter_eq_self.mpr (fun c hc => by simpa using hcs c hc)
  · rw [htr]
    simp [execActs, stepA]

/-- Witness for `teardown_idempotent_and_safe` at a concrete input. -/
theorem teardown_idempotent_and_safe_witness :
    "abc" ≠ "" ∧
    (stopActs defaultEnv ⟨some "abc"⟩ =
      [Action.killContainer "abc" (defaultEnv.palStopSignal.getD "SIGKILL"),
       Action.removeContainer "abc",
       Action.emitSelf stopAckMsg] ∧
    (∀ w, (execActs (execActs w (containerStopActs defaultEnv "abc"))
        (containerStopActs defaultEnv "abc")).containers =
        (execActs w (containerStopActs defaultEnv "abc")).containers) ∧
    (∀ w, liveNamed w "abc" = 0 →
      (execActs w (stopActs defaultEnv ⟨some "abc"⟩)).containers = w.containers) ∧
    (∀ w, (execActs w (stopActs defaultEnv ⟨some "abc"⟩)).inbox =
      w.inbox ++ [stopAckMsg])) :=
  ⟨by decide, teardown_idempotent_and_safe defaultEnv "abc" (by decide)⟩

/-- Normal form of a `start` trace once validation and the code fetch have
succeeded. -/
theorem startActs_eq_of_valid_clone (env : Env) (d : StartData) (o : RunOutcome)
    (hv : startValid env d = true) (hc : o.cloneOk = true) :
    startActs env d o =
      [Action.emitSelf
         { status := 200, message := some "Request acknowledged. Downloading code..." },
       Action.cloneCode (d.projectId.getD "") (d.schoolId.getD ""),
       Action.killContainer (d.projectId.getD "") (env.palStopSignal.getD "SIGKILL"),
       Action.removeContainer (d.projectId.getD ""),
       Action.leaveAll,
       Action.joinRoom (d.projectId.getD ""),
       Action.emitRoom (d.projectId.getD "") { status := 200, message := some "Starting..." },
       Action.createContainer
         (containerConfig env (d.projectId.getD "") (d.language.getD "")) o.createOk] ++
      (if o.createOk = true then
        [Action.emitRoom (d.projectId.getD "")
           { status := 200, message := some "Container created! Mounting...",
             running := some true },
         Action.startContainer (d.projectId.getD ""),
         Action.attachOutput (d.projectId.getD "")] ++
        o.chunks.map (chunkEvent (d.projectId.getD "")) ++
        [Action.emitRoom (d.projectId.getD "") runEndedMsg,
         Action.killContainer (d.projectId.getD "") (env.palStopSignal.getD "SIGKILL"),
         Action.removeContainer (d.projectId.getD ""),
         Action.saveChanges (d.projectId.getD "") (d.schoolId.getD "")]
      else
        [Action.emitRoom (d.projectId.getD "") provisionFailMsg]) := by
  simp [startActs, hv, hc, containerStopActs, execCodeActs, relayEndActs, runEndedMsg,
    provisionFailMsg]

/-- Normal form of a `start` trace when creation fails. -/
theorem startActs_eq_createFail (env : Env) (d : StartData) (o : RunOutcome)
    (hv : startValid env d = true) (hc : o.cloneOk = true) (hk : o.createOk = false) :
    startActs env d o =
      [Action.emitSelf
         { status := 200, message := some "Request acknowledged. Downloading code..." },
       Action.cloneCode (d.projectId.getD "") (d.schoolId.getD ""),
       Action.killContainer (d.projectId.getD "") (env.palStopSignal.getD "SIGKILL"),
       Action.removeContainer (d.projectId.getD ""),
       Action.leaveAll,
       Action.joinRoom (d.projectId.getD ""),
       Action.emitRoom (d.projectId.getD "") { status := 200, message := some "Starting..." },
       Action.createContainer
         (containerConfig env (d.projectId.getD "") (d.language.getD "")) false,
       Action.emitRoom (d.projectId.getD "") provisionFailMsg] := by
  rw [startActs_eq_of_valid_clone env d o hv hc, hk]
  simp

/-- Normal form of a fully successful `start` trace. -/
theorem startActs_eq_createOk (env : Env) (d : StartData) (o : RunOutcome)
    (hv : startValid env d = true) (hc : o.cloneOk = true) (hk : o.createOk = true) :
    startActs env d o =
      ([Action.emitSelf
          { status := 200, message := some "Request acknowledged. Downloading code..." },
        Action.cloneCode (d.projectId.getD "") (d.schoolId.getD ""),
        Action.killContainer (d.projectId.getD "") (env.palStopSignal.getD "SIGKILL"),
        Action.removeContainer (d.projectId.getD ""),
        Action.leaveAll,
        Action.joinRoom (d.projectId.getD ""),
        Action.emitRoom (d.projectId.getD "") { status := 200, message := some "Starting..." },
        Action.createContainer
          (containerConfig env (d.projectId.getD "") (d.language.getD "")) true,
        Action.emitRoom (d.projectId.getD "")
          { status := 200, message := some "Container created! Mounting...",
            running := some true },
        Action.startContainer (d.projectId.getD ""),
        Action.attachOutput (d.projectId.getD "")] ++
       o.chunks.map (chunkEvent (d.projectId.getD ""))) ++
      [Action.emitRoom (d.projectId.getD "") runEndedMsg,
       Action.killContainer (d.projectId.getD "") (env.palStopSignal.getD "SIGKILL"),
       Action.removeContainer (d.projectId.getD ""),
       Action.saveChanges (d.projectId.getD "") (d.schoolId.getD "")] := by
  rw [startActs_eq_of_valid_clone env d o hv hc, hk]
  simp

/-- C3 counterexample: at a concrete valid `start` whose container creation
fails, the subscriber set receives zero — not one — events of the
spec-claimed shape `{status: 200, message: string, running: false}`; the
failure event the code emits carries status 500. -/
theorem provision_failure_claimed_shape_false :
    ¬ ((startActs defaultEnv dWit oWitNoCreate).countP isRoom200MsgNotRunning = 1) := by
  decide

/-- C3 amended: when sandbox creation fails for a valid `start`, the whole
subscriber set of the project receives exactly one failure event, of shape
`{status: 500, message: string, running: false}`; no output relay is
attached and no second creation attempt (retry) occurs. -/
theorem provision_failure_exactly_one_event (env : Env) (d : StartData) (o : RunOutcome)
    (hv : startValid env d = true) (hc : o.cloneOk = true) (hk : o.createOk = false) :
    (startActs env d o).count
      (Action.emitRoom (d.projectId.getD "") provisionFailMsg) = 1 ∧
    (startActs env d o).countP isAttach = 0 ∧
    (startActs env d o).countP isCreateA = 1 := by
  rw [startActs_eq_createFail env d o hv hc hk]
  refine ⟨?_, ?_, ?_⟩ <;>
    simp [List.count_cons, List.countP_cons, isAttach, isCreateA, provisionFailMsg]

/-- Witness for `provision_failure_exactly_one_event` at concrete inputs. -/
theorem provision_failure_exactly_one_event_witness :
    startValid defaultEnv dWit = true ∧ oWitNoCreate.cloneOk = true ∧
    oWitNoCreate.createOk = false ∧
    ((startActs defaultEnv dWit oWitNoCreate).count
      (Action.emitRoom (dWit.projectId.getD "") provisionFailMsg) = 1 ∧
    (startActs defaultEnv dWit oWitNoCreate).countP isAttach = 0 ∧
    (startActs defaultEnv dWit oWitNoCreate).countP isCreateA = 1) :=
  ⟨by decide, rfl, rfl,
    provision_failure_exactly_one_event defaultEnv dWit oWitNoCreate (by decide) rfl rfl⟩

/-- C4: in every session whose output stream ends, the terminal
`{status: 200, running: false}` event goes to the subscriber set exactly
once, and the trace ends with exactly that event followed by one teardown
(kill, then remove) and one persistence call — nothing else follows, and
no other persistence call occurs anywhere in the trace. -/
theorem relay_end_once_teardown_save (env : Env) (d : StartData) (o : RunOutcome)
    (hv : startValid env d = true) (hc : o.cloneOk = true) (hk : o.createOk = true) :
    (∃ l₁, startActs env d o =
        l₁ ++ [Action.emitRoom (d.projectId.getD "") runEndedMsg,
               Action.killContainer (d.projectId.getD "") (env.palStopSignal.getD "SIGKILL"),
               Action.removeContainer (d.projectId.getD ""),
               Action.saveChanges (d.projectId.getD "") (d.schoolId.getD "")] ∧
        l₁.count (Action.emitRoom (d.projectId.getD "") runEndedMsg) = 0) ∧
    (startActs env d o).count (Action.emitRoom (d.projectId.getD "") runEndedMsg) = 1 ∧
    (startActs env d o).countP isSave = 1 := by
  have htr := startActs_eq_createOk env d o hv hc hk
  have hmapcount :
      (o.chunks.map (chunkEvent (d.projectId.getD ""))).count
        (Action.emitRoom (d.projectId.getD "") runEndedMsg) = 0 := by
    apply List.count_eq_zero.mpr
    intro h
    rcases List.mem_map.mp h with ⟨c, -, hceq⟩
    simp [chunkEvent, runEndedMsg] at hceq
  simp only [runEndedMsg] at hmapcount
  have hmapsave :
      (o.chunks.map (chunkEvent (d.projectId.getD ""))).countP isSave = 0 := by
    apply List.countP_eq_zero.mpr
    intro a ha
    rcases List.mem_map.mp ha with ⟨c, -, rfl⟩
    simp [chunkEvent, isSave]
  refine ⟨⟨_, htr, ?_⟩, ?_, ?_⟩
  · simp [List.count_append, List.count_cons, hmapcount, runEndedMsg]
  · rw [htr]
    simp [List.count_append, List.count_cons, hmapcount, runEndedMsg]
  · rw [htr]
    simp [List.countP_append, List.countP_cons, hmapsave, isSave]

/-- Witness for `relay_end_once_teardown_save` at concrete inputs. -/
theorem relay_end_once_teardown_save_witness :
    startValid defaultEnv dWit = true ∧ oWit.cloneOk = true ∧ oWit.createOk = true ∧
    ((∃ l₁, startActs defaultEnv dWit oWit =
        l₁ ++ [Action.emitRoom (dWit.projectId.getD "") runEndedMsg,
               Action.killContainer (dWit.projectId.getD "")
                 (defaultEnv.palStopSignal.getD "SIGKILL"),
               Action.removeContainer (dWit.projectId.getD ""),
               Action.saveChanges (dWit.projectId.getD "") (dWit.schoolId.getD "")] ∧
        l₁.count (Action.emitRoom (dWit.projectId.getD "") runEndedMsg) = 0) ∧
    (startActs defaultEnv dWit oWit).count
      (Action.emitRoom (dWit.projectId.getD "") runEndedMsg) = 1 ∧
    (startActs defaultEnv dWit oWit).countP isSave = 1) :=
  ⟨by decide, rfl, rfl,
    relay_end_once_teardown_save defaultEnv dWit oWit (by decide) rfl rfl⟩

/-- C5: the container created by a valid `start` is named after the
project and carries the configured resource limits, with the documented
defaults when unconfigured: memory 104857600 bytes, process-count limit
25, disk quota 52428800 bytes, a wall-clock timeout of (default) 15
minutes handed to the entrypoint, and the CPU budget the allocator
returned. -/
theorem sandbox_resource_limits (env : Env) (d : StartData) (o : RunOutcome)
    (hv : startValid env d = true) (hc : o.cloneOk = true) :
    (∀ cfg ok, Action.createContainer cfg ok ∈ startActs env d o →
      cfg.name = d.projectId.getD "" ∧
      cfg.memory = env.palMemoryQuota.getD 104857600 ∧
      cfg.pidsLimit = env.palPidLimit.getD 25 ∧
      cfg.diskQuota = env.palDiskQuota.getD 52428800 ∧
      cfg.entrypoint = ["./run.sh", toString (env.palTimeout.getD 15) ++ "m"] ∧
      cfg.nanoCPUs = env.getMaxCPUs) ∧
    (∃ ok, Action.createContainer
        (containerConfig env (d.projectId.getD "") (d.language.getD "")) ok ∈
        startActs env d o) := by
  have htr := startActs_eq_of_valid_clone env d o hv hc
  constructor
  · intro cfg ok hmem
    rw [htr] at hmem
    have hcfg : cfg = containerConfig env (d.projectId.getD "") (d.language.getD "") := by
      split at hmem <;> simp [chunkEvent] at hmem <;> exact hmem.1
    subst hcfg
    refine ⟨rfl, ?_, ?_, ?_, rfl, rfl⟩ <;> norm_num [containerConfig]
  · exact ⟨o.createOk, by rw [htr]; simp⟩

/-- Witness for `sandbox_resource_limits` at concrete inputs. -/
theorem sandbox_resource_limits_witness :
    startValid defaultEnv dWit = true ∧ oWit.cloneOk = true ∧
    ((∀ cfg ok, Action.createContainer cfg ok ∈ startActs defaultEnv dWit oWit →
      cfg.name = dWit.projectId.getD "" ∧
      cfg.memory = defaultEnv.palMemoryQuota.getD 104857600 ∧
      cfg.pidsLimit = defaultEnv.palPidLimit.getD 25 ∧
      cfg.diskQuota = defaultEnv.palDiskQuota.getD 52428800 ∧
      cfg.entrypoint = ["./run.sh", toString (defaultEnv.palTimeout.getD 15) ++ "m"] ∧
      cfg.nanoCPUs = defaultEnv.getMaxCPUs) ∧
    (∃ ok, Action.createContainer
        (containerConfig defaultEnv (dWit.projectId.getD "") (dWit.language.getD "")) ok ∈
        startActs defaultEnv dWit oWit)) :=
  ⟨by decide, rfl, sandbox_resource_limits defaultEnv dWit oWit (by decide) rfl⟩

theorem rooms_stepA_eq (w : World) (a : Action) (h : touchesRooms a = false) :
    (stepA w a).rooms = w.rooms := by
  cases a with
  | emitSelf m => rfl
  | emitRoom r m =>
    simp only [stepA]
    split <;> rfl
  | cloneCode x y => rfl
  | killContainer x y => rfl
  | removeContainer x => rfl
  | createContainer cfg ok =>
    simp only [stepA]
    split <;> rfl
  | startContainer x => rfl
  | attachOutput x => rfl
  | saveChanges x y => rfl
  | leaveAll => simp [touchesRooms] at h
  | joinRoom r => simp [touchesRooms] at h
  | stdinWrite x y => rfl

theorem rooms_execActs_eq (w : World) (l : List Action)
    (h : ∀ a ∈ l, touchesRooms a = false) : (execActs w l).rooms = w.rooms := by
  induction l generalizing w with
  | nil => rfl
  | cons a t ih =>
    rw [execActs_cons, ih (stepA w a) (fun b hb => h b (List.mem_cons_of_mem a hb)),
      rooms_stepA_eq w a (h a (List.mem_cons_self a t))]

/-- After a trace that at some point does `leaveAll` immediately followed
by `joinRoom p` and afterwards never touches rooms again, the socket's
memberships are exactly `[p]`. -/
theorem rooms_after_replace (w : World) (l₁ l₂ : List Action) (p : String)
    (h₂ : ∀ a ∈ l₂, touchesRooms a = false) :
    (execActs w (l₁ ++ Action.leaveAll :: Action.joinRoom p :: l₂)).rooms = [p] := by
  rw [execActs_append, execActs_cons, execActs_cons, rooms_execActs_eq _ _ h₂]
  simp [stepA]

/-- C6: every valid `start` performs exactly one subscriber-set
replacement on the issuing connection: one `leaveAll`, then one `joinRoom`
of the started project, leaving the socket's memberships exactly that
project's room — so a room emission of any other project is no longer
delivered to this socket. -/
theorem start_replaces_subscriber_set (env : Env) (d : StartData) (o : RunOutcome)
    (hv : startValid env d = true) (hc : o.cloneOk = true) :
    (startActs env d o).countP isLeaveAll = 1 ∧
    (startActs env d o).countP isJoin = 1 ∧
    ((startActs env d o).get? 4 = some Action.leaveAll ∧
     (startActs env d o).get? 5 = some (Action.joinRoom (d.projectId.getD ""))) ∧
    (∀ w, (execActs w (startActs env d o)).rooms = [d.projectId.getD ""]) ∧
    (∀ w A m, A ≠ d.projectId.getD "" →
      stepA (execActs w (startActs env d o)) (Action.emitRoom A m) =
        execActs w (startActs env d o)) := by
  have htr := startActs_eq_of_valid_clone env d o hv hc
  have hrooms : ∀ w, (execActs w (startActs env d o)).rooms = [d.projectId.getD ""] := by
    intro w
    rw [htr]
    refine rooms_after_replace w
      [Action.emitSelf
         { status := 200, message := some "Request acknowledged. Downloading code..." },
       Action.cloneCode (d.projectId.getD "") (d.schoolId.getD ""),
       Action.killContainer (d.projectId.getD "") (env.palStopSignal.getD "SIGKILL"),
       Action.removeContainer (d.projectId.getD "")]
      ([Action.emitRoom (d.projectId.getD "")
          { status := 200, message := some "Starting..." },
        Action.createContainer
          (containerConfig env (d.projectId.getD "") (d.language.getD "")) o.createOk] ++
       (if o.createOk = true then
         [Action.emitRoom (d.projectId.getD "")
            { status := 200, message := some "Container created! Mounting...",
              running := some true },
          Action.startContainer (d.projectId.getD ""),
          Action.attachOutput (d.projectId.getD "")] ++
         o.chunks.map (chunkEvent (d.projectId.getD "")) ++
         [Action.emitRoom (d.projectId.getD "") runEndedMsg,
          Action.killContainer (d.projectId.getD "") (env.palStopSignal.getD "SIGKILL"),
          Action.removeContainer (d.projectId.getD ""),
          Action.saveChanges (d.projectId.getD "") (d.schoolId.getD "")]
       else
         [Action.emitRoom (d.projectId.getD "") provisionFailMsg]))
      (d.projectId.getD "") ?_
    intro a ha
    simp only [List.cons_append, List.nil_append, List.mem_cons, List.mem_append] at ha
    rcases ha with rfl | rfl | ha
    · rfl
    · rfl
    · split at ha
      · simp at ha
        rcases ha with rfl | rfl | rfl | ⟨c, cc, -, rfl⟩ | rfl | rfl | rfl | rfl <;> rfl
      · simp at ha
        subst ha
        rfl
  refine ⟨?_, ?_, ?_, hrooms, ?_⟩
  · rw [htr]
    cases hk : o.createOk with
    | false =>
      simp [hk, List.countP_append, List.countP_cons, isLeaveAll]
    | true =>
      have hmap : (o.chunks.map (chunkEvent (d.projectId.getD ""))).countP isLeaveAll = 0 := by
        apply List.countP_eq_zero.mpr
        intro a ha
        rcases List.mem_map.mp ha with ⟨c, -, rfl⟩
        simp [chunkEvent, isLeaveAll]
      simp [hk, List.countP_append, List.countP_cons, isLeaveAll, hmap]
  · rw [htr]
    cases hk : o.createOk with
    | false =>
      simp [hk, List.countP_append, List.countP_cons, isJoin]
    | true =>
      have hmap : (o.chunks.map (chunkEvent (d.projectId.getD ""))).countP isJoin = 0 := by
        apply List.countP_eq_zero.mpr
        intro a ha
        rcases List.mem_map.mp ha with ⟨c, -, rfl⟩
        simp [chunkEvent, isJoin]
      simp [hk, List.countP_append, List.countP_cons, isJoin, hmap]
  · rw [htr]
    exact ⟨rfl, rfl⟩
  · intro w A m hA
    have h1 := hrooms w
    simp only [stepA, h1]
    rw [if_neg]
    simp [hA]

/-- Witness for `start_replaces_subscriber_set` at concrete inputs. -/
theorem start_replaces_subscriber_set_witness :
    startValid defaultEnv dWit = true ∧ oWit.cloneOk = true ∧
    ((startActs defaultEnv dWit oWit).countP isLeaveAll = 1 ∧
    (startActs defaultEnv dWit oWit).countP isJoin = 1 ∧
    ((startActs defaultEnv dWit oWit).get? 4 = some Action.leaveAll ∧
     (startActs defaultEnv dWit oWit).get? 5 =
       some (Action.joinRoom (dWit.projectId.getD ""))) ∧
    (∀ w, (execActs w (startActs defaultEnv dWit oWit)).rooms =
      [dWit.projectId.getD ""]) ∧
    (∀ w A m, A ≠ dWit.projectId.getD "" →
      stepA (execActs w (startActs defaultEnv dWit oWit)) (Action.emitRoom A m) =
        execActs w (startActs defaultEnv dWit oWit))) :=
  ⟨by decide, rfl, start_replaces_subscriber_set defaultEnv dWit oWit (by decide) rfl⟩

/-- C9: a `start` that passes validation and the code fetch but fails at
container creation is not atomic: its failure event is the last action
(position 8), and in the state at which it is emitted the previous
container has already been removed (no container of the project's name is
live) and the socket's memberships have already been replaced with exactly
the project's room. -/
theorem failed_create_not_atomic (env : Env) (d : StartData) (o : RunOutcome)
    (hv : startValid env d = true) (hc : o.cloneOk = true) (hk : o.createOk = false) :
    (startActs env d o).get? 8 =
      some (Action.emitRoom (d.projectId.getD "") provisionFailMsg) ∧
    (startActs env d o).length = 9 ∧
    (∀ w, (execActs w ((startActs env d o).take 8)).rooms = [d.projectId.getD ""]) ∧
    (∀ w, liveNamed (execActs w ((startActs env d o).take 8)) (d.projectId.getD "") = 0) := by
  have htr := startActs_eq_createFail env d o hv hc hk
  refine ⟨by rw [htr]; rfl, by rw [htr]; rfl, ?_, ?_⟩
  · intro w
    rw [htr]
    exact rooms_after_replace w
      [Action.emitSelf
         { status := 200, message := some "Request acknowledged. Downloading code..." },
       Action.cloneCode (d.projectId.getD "") (d.schoolId.getD ""),
       Action.killContainer (d.projectId.getD "") (env.palStopSignal.getD "SIGKILL"),
       Action.removeContainer (d.projectId.getD "")]
      [Action.emitRoom (d.projectId.getD "")
         { status := 200, message := some "Starting..." },
       Action.createContainer
         (containerConfig env (d.projectId.getD "") (d.language.getD "")) false]
      (d.projectId.getD "")
      (by intro a ha; simp at ha; rcases ha with rfl | rfl <;> rfl)
  · intro w
    rw [htr]
    have hsplit : ([Action.emitSelf
         { status := 200, message := some "Request acknowledged. Downloading code..." },
       Action.cloneCode (d.projectId.getD "") (d.schoolId.getD ""),
       Action.killContainer (d.projectId.getD "") (env.palStopSignal.getD "SIGKILL"),
       Action.removeContainer (d.projectId.getD ""),
       Action.leaveAll,
       Action.joinRoom (d.projectId.getD ""),
       Action.emitRoom (d.projectId.getD "")
         { status := 200, message := some "Starting..." },
       Action.createContainer
         (containerConfig env (d.projectId.getD "") (d.language.getD "")) false,
       Action.emitRoom (d.projectId.getD "") provisionFailMsg] : List Action).take 8 =
      [Action.emitSelf
         { status := 200, message := some "Request acknowledged. Downloading code..." },
       Action.cloneCode (d.projectId.getD "") (d.schoolId.getD ""),
       Action.killContainer (d.projectId.getD "") (env.palStopSignal.getD "SIGKILL")] ++
      Action.removeContainer (d.projectId.getD "") ::
      [Action.leaveAll,
       Action.joinRoom (d.projectId.getD ""),
       Action.emitRoom (d.projectId.getD "")
         { status := 200, message := some "Starting..." },
       Action.createContainer
         (containerConfig env (d.projectId.getD "") (d.language.getD "")) false] := rfl
    rw [hsplit, execActs_append, execActs_cons]
    apply Nat.le_zero.mp
    calc liveNamed (execActs (stepA (execActs w _) (Action.removeContainer (d.projectId.getD "")))
          [Action.leaveAll,
           Action.joinRoom (d.projectId.getD ""),
           Action.emitRoom (d.projectId.getD "")
             { status := 200, message := some "Starting..." },
           Action.createContainer
             (containerConfig env (d.projectId.getD "") (d.language.getD "")) false])
          (d.projectId.getD "") ≤
        liveNamed (stepA (execActs w _) (Action.removeContainer (d.projectId.getD "")))
          (d.projectId.getD "") := by
          apply liveNamed_execActs_le
          intro a ha
          simp at ha
          rcases ha with rfl | rfl | rfl | rfl <;> rfl
      _ = 0 := liveNamed_remove_self _ _

/-- Witness for `failed_create_not_atomic` at concrete inputs. -/
theorem failed_create_not_atomic_witness :
    startValid defaultEnv dWit = true ∧ oWitNoCreate.cloneOk = true ∧
    oWitNoCreate.createOk = false ∧
    ((startActs defaultEnv dWit oWitNoCreate).get? 8 =
      some (Action.emitRoom (dWit.projectId.getD "") provisionFailMsg) ∧
    (startActs defaultEnv dWit oWitNoCreate).length = 9 ∧
    (∀ w, (execActs w ((startActs defaultEnv dWit oWitNoCreate).take 8)).rooms =
      [dWit.projectId.getD ""]) ∧
    (∀ w, liveNamed (execActs w ((startActs defaultEnv dWit oWitNoCreate).take 8))
      (dWit.projectId.getD "") = 0)) :=
  ⟨by decide, rfl, rfl,
    failed_create_not_atomic defaultEnv dWit oWitNoCreate (by decide) rfl rfl⟩

end PalcodeRunner
